import Mathlib

/-!
Shallow embedding of the IDAES generic Helmholtz equation-of-state property
package (`idaes/generic_models/properties/helmholtz/helmholtz.py`).

Modelling conventions:
* Python floats are modelled by `ℚ` (the code performs only field arithmetic
  and comparisons on them).
* The native property kernel (the external C functions `p_sat`, `tau_sat`,
  `delta_liq`, `delta_vap`, `hlpt`, `hvpt`, `tau`, `vf`, `h`, `u`, ...) is an
  opaque external function service; it is modelled as an abstract bundle of
  rational functions (`Kernel`) over which all statements are quantified.
* `smooth_max` comes from `idaes.core.util.math`, outside the sources of this
  development; the statements here use it only as an opaque three-argument
  operation, so it is passed in as an abstract function argument `smax`.
* Pyomo `Expression` components are modelled semantically, as functions of the
  primary state variables; `Constraint` components by the residual function of
  their right-hand side; `Var.fix`/`Var.unfix` by a boolean `fixed` flag.
-/

namespace Helmholtz

/-- State variable set options (`class StateVars`): Pressure-Enthalpy or
Temperature-Pressure-Quality. -/
inductive StateVars
  | PH
  | TPX
  deriving DecidableEq, Repr

/-- Ways to present phases to the framework (`class PhaseType`). -/
inductive PhaseType
  | MIX
  | LG
  | L
  | G
  deriving DecidableEq, Repr

/-- The two enumerated configuration options of the parameter block
(`phase_presentation` and `state_vars` config values). -/
structure HelmholtzConfig where
  phase_presentation : PhaseType
  state_vars : StateVars
  deriving DecidableEq, Repr

/-- The per-fluid constants installed by
`HelmholtzParameterBlockData._set_parameters` (only the ones the claims
touch). -/
structure FluidConsts where
  temperature_crit : ℚ
  pressure_crit : ℚ
  dens_mass_crit : ℚ
  mw : ℚ
  deriving DecidableEq, Repr

/-- Abstract handle to the native property kernel: the external functions
created by `HelmholtzStateBlockData._external_functions`.  Each field is the
semantic function of the corresponding `ExternalFunction`. -/
structure Kernel where
  p_sat : ℚ → ℚ
  tau_sat : ℚ → ℚ
  delta_liq : ℚ → ℚ → ℚ
  delta_vap : ℚ → ℚ → ℚ
  hlpt : ℚ → ℚ → ℚ
  hvpt : ℚ → ℚ → ℚ
  tau : ℚ → ℚ → ℚ
  vf : ℚ → ℚ → ℚ
  h : ℚ → ℚ → ℚ
  u : ℚ → ℚ → ℚ

/-- The parameter block after `HelmholtzParameterBlockData.build`: the fluid
constants together with the public phase list, the private phase list, the two
smoothing parameters and the chosen state-variable set. -/
structure HelmholtzParams where
  config : HelmholtzConfig
  phase_list : List String
  private_phase_list : List String
  state_vars : StateVars
  smoothing_pressure_over : ℚ
  smoothing_pressure_under : ℚ
  temperature_crit : ℚ
  pressure_crit : ℚ
  dens_mass_crit : ℚ
  mw : ℚ

namespace HelmholtzParameterBlockData

/-- Model of `HelmholtzParameterBlockData.build`: sets `private_phase_list` to
`{Vap, Liq}`, selects the public `phase_list` from the phase-presentation
config option, copies the state-variable config option, and creates the two
smoothing parameters with initial value `1e-4`. -/
def build (cfg : HelmholtzConfig) (c : FluidConsts) : HelmholtzParams where
  config := cfg
  private_phase_list := ["Vap", "Liq"]
  phase_list :=
    match cfg.phase_presentation with
    | .MIX => ["Mix"]
    | .LG => ["Vap", "Liq"]
    | .L => ["Liq"]
    | .G => ["Vap"]
  state_vars := cfg.state_vars
  smoothing_pressure_over := 1 / 10000
  smoothing_pressure_under := 1 / 10000
  temperature_crit := c.temperature_crit
  pressure_crit := c.pressure_crit
  dens_mass_crit := c.dens_mass_crit
  mw := c.mw

end HelmholtzParameterBlockData

/-- Which kernel branch a `_htpx` call ends up in: the liquid enthalpy
function `func_hlpt`, the vapor enthalpy function `func_hvpt`, or the
saturated blend of both (the vapor-fraction branch). -/
inductive Branch
  | liq
  | vap
  | sat
  deriving DecidableEq, Repr

/-- Model of `_htpx(T, prop, P, x, Tmin, Tmax, Pmin, Pmax)`: enthalpy from temperature
and either pressure or vapor fraction.  A raised `ConfigurationError` is
modelled by `Except.error ()`; a normal return by `Except.ok` carrying the
kernel branch taken together with the returned molar enthalpy. -/
def _htpx (K : Kernel) (Tc Pc mw : ℚ) (T : ℚ) (P x : Option ℚ)
    (Tmin Tmax Pmin Pmax : ℚ) : Except Unit (Branch × ℚ) :=
  if ¬(P.isNone ^^ x.isNone) then .error () else
  if ¬(Tmin ≤ T ∧ T ≤ Tmax) then .error () else
  if (match P with | some p => decide (¬(Pmin ≤ p ∧ p ≤ Pmax)) | none => false)
    then .error () else
  if (match x with | some xv => decide (¬(0 ≤ xv ∧ xv ≤ 1)) | none => false)
    then .error () else
  match P, x with
  | some p, none =>
    let Tsat := Tc / K.tau_sat (p / 1000)
    if T < Tsat ∨ p > Pc then
      .ok (.liq, K.hlpt (p / 1000) (Tc / T) * mw * 1000)
    else
      .ok (.vap, K.hvpt (p / 1000) (Tc / T) * mw * 1000)
  | none, some xv =>
    let Psat := K.p_sat (Tc / T)
    .ok (.sat, K.hlpt Psat (Tc / T) * mw * 1000 * (1 - xv)
      + K.hvpt Psat (Tc / T) * mw * 1000 * xv)
  | _, _ => .error ()

/-- Returns `true` exactly when the `_htpx` result is a raised `ConfigurationError`. -/
def isErr (e : Except Unit (Branch × ℚ)) : Bool :=
  match e with
  | .error _ => true
  | .ok _ => false

/-- A concrete kernel instance used to evaluate statements at concrete
points. -/
def Kdemo : Kernel where
  p_sat := fun _ => 10
  tau_sat := fun _ => 2
  delta_liq := fun _ _ => 500
  delta_vap := fun _ _ => 5
  hlpt := fun _ _ => 100
  hvpt := fun _ _ => 200
  tau := fun _ _ => 2
  vf := fun _ _ => 1 / 2
  h := fun _ _ => 3
  u := fun _ _ => 4

/-- The expression `self.tau = Tc / T` built in
`HelmholtzStateBlockData.build`. -/
def tau (pb : HelmholtzParams) (T : ℚ) : ℚ :=
  pb.temperature_crit / T

/-- The expression `self.pressure_sat = 1000 * func_p_sat(tau)` built in
`HelmholtzStateBlockData.build` (value in Pa). -/
def pressure_sat (pb : HelmholtzParams) (K : Kernel) (T : ℚ) : ℚ :=
  1000 * K.p_sat (tau pb T)

/-- The components added by `HelmholtzStateBlockData._tpx_phase_eq`.
Expression components are functions of the primary variables `pressure` (Pa)
and `temperature` (K); the complementarity constraint is the residual of its
right-hand side as a function of `vapor_frac`, `pressure`, `temperature`, and
is `none` when the constraint is not built.  `vf_fix` is `some v` when the
method calls `vapor_frac.fix(v)`. -/
structure TpxPhaseEq where
  P_under_sat : ℚ → ℚ → ℚ
  P_over_sat : ℚ → ℚ → ℚ
  dens_mass_phase : String → ℚ → ℚ → ℚ
  vf_fix : Option ℚ
  eq_complementarity : Option (ℚ → ℚ → ℚ → ℚ)

/-- Model of `HelmholtzStateBlockData._tpx_phase_eq` (TPX mode only): builds the
smoothed distances from saturation, the phase mass densities at shifted
pressures, and either fixes `vapor_frac` (single public phase) or, when the
state is not a `defined_state`, adds the complementarity constraint
`0 == vf*P_over_sat - (1 - vf)*P_under_sat`.  `smax` is the external
`smooth_max` from `idaes.core.util.math`, kept opaque. -/
def _tpx_phase_eq (pb : HelmholtzParams) (defined_state : Bool) (K : Kernel)
    (smax : ℚ → ℚ → ℚ → ℚ) : TpxPhaseEq :=
  let eps_pu := pb.smoothing_pressure_under
  let eps_po := pb.smoothing_pressure_over
  let plist := pb.phase_list
  let rhoc := pb.dens_mass_crit
  let Pu : ℚ → ℚ → ℚ := fun P T =>
    smax 0 (pressure_sat pb K T / 1000 - P / 1000) eps_pu
  let Po : ℚ → ℚ → ℚ := fun P T =>
    smax 0 (P / 1000 - pressure_sat pb K T / 1000) eps_po
  { P_under_sat := Pu
    P_over_sat := Po
    dens_mass_phase := fun p P T =>
      if p = "Liq" then rhoc * K.delta_liq (P / 1000 + Pu P T) (tau pb T)
      else rhoc * K.delta_vap (P / 1000 - Po P T) (tau pb T)
    vf_fix :=
      if plist.length = 1 then
        (if "Vap" ∈ plist then some 1 else some 0)
      else none
    eq_complementarity :=
      if plist.length = 1 then none
      else if defined_state = false then
        some (fun vf P T => vf * Po P T - (1 - vf) * Pu P T)
      else none }

/-- The `vapor_frac` Expression built by `HelmholtzStateBlockData._state_vars`
in PH mode, as a function of the primary variables `enth_mol` (J/mol) and
`pressure` (Pa): the kernel `func_vf` of mass enthalpy and pressure in kPa for
two-phase presentations, the constant 0 (Liquid-only) or 1 (Vapor-only)
otherwise. -/
def ph_vapor_frac (pb : HelmholtzParams) (K : Kernel)
    (enth pressure : ℚ) : ℚ :=
  match pb.config.phase_presentation with
  | .MIX => K.vf (enth / pb.mw / 1000) (pressure / 1000)
  | .LG => K.vf (enth / pb.mw / 1000) (pressure / 1000)
  | .L => 0
  | .G => 1

/-- Whether `HelmholtzStateBlockData.build` creates the `eq_complementarity`
constraint on a state instance: `build` calls `_tpx_phase_eq` only in TPX
mode, and `_tpx_phase_eq` may or may not build the constraint. -/
def has_complementarity (pb : HelmholtzParams) (defined_state : Bool)
    (K : Kernel) (smax : ℚ → ℚ → ℚ → ℚ) : Bool :=
  match pb.state_vars with
  | .PH => false
  | .TPX => (_tpx_phase_eq pb defined_state K smax).eq_complementarity.isSome

/-- The primary variables a name in `_state_vars_dict` can refer to. -/
inductive PrimaryVar
  | flow_mol
  | enth_mol
  | pressure
  | temperature
  | vapor_frac
  deriving DecidableEq, Repr

/-- The `self._state_vars_dict` mapping set at the end of
`HelmholtzStateBlockData.build`, as an association list from canonical name to
the primary variable it references. -/
def _state_vars_dict (pb : HelmholtzParams) : List (String × PrimaryVar) :=
  match pb.state_vars with
  | .PH =>
    [("flow_mol", .flow_mol), ("enth_mol", .enth_mol), ("pressure", .pressure)]
  | .TPX =>
    if pb.config.phase_presentation = .MIX ∨
        pb.config.phase_presentation = .LG then
      [("flow_mol", .flow_mol), ("temperature", .temperature),
        ("pressure", .pressure), ("vapor_frac", .vapor_frac)]
    else
      [("flow_mol", .flow_mol), ("temperature", .temperature),
        ("pressure", .pressure)]

/-- Model of `HelmholtzStateBlockData.define_state_vars`: returns `_state_vars_dict`. -/
def define_state_vars (pb : HelmholtzParams) : List (String × PrimaryVar) :=
  _state_vars_dict pb

/-- Model of `rule_phase_frac` from `HelmholtzStateBlockData.build`: `vapor_frac` for
the vapor phase, `1 - vapor_frac` for the liquid phase. -/
def phase_frac (vf : ℚ) (p : String) : ℚ :=
  if p = "Vap" then vf else 1 - vf

/-- The mixture mass density Expression
`1.0 / sum(phase_frac[p] * 1.0 / dens_mass_phase[p] for p in phlist)` from
`HelmholtzStateBlockData.build`, as a function of the phase mass-density
expressions `dmp` and the vapor fraction. -/
def dens_mass (pb : HelmholtzParams) (dmp : String → ℚ) (vf : ℚ) : ℚ :=
  1 / (pb.private_phase_list.map (fun p => phase_frac vf p * 1 / dmp p)).sum

/-- Model of `rule_dens_mol_phase`: phase mole density `dens_mass_phase[p] / mw`. -/
def dens_mol_phase (pb : HelmholtzParams) (dmp : String → ℚ) (p : String) : ℚ :=
  dmp p / pb.mw

/-- The mixture mole density Expression
`1.0 / sum(phase_frac[p] * 1.0 / dens_mol_phase[p] for p in phlist)` from
`HelmholtzStateBlockData.build`. -/
def dens_mol (pb : HelmholtzParams) (dmp : String → ℚ) (vf : ℚ) : ℚ :=
  1 / (pb.private_phase_list.map
    (fun p => phase_frac vf p * 1 / dens_mol_phase pb dmp p)).sum

/-- The quantities consumed by the balance-term rules at the end of
`HelmholtzStateBlockData.build`, as values at one evaluation point. -/
structure Quantities where
  flow_mol : ℚ
  enth_mol : ℚ
  dens_mol : ℚ
  energy_internal_mol : ℚ
  phase_frac : String → ℚ
  enth_mol_phase : String → ℚ
  dens_mol_phase : String → ℚ
  energy_internal_mol_phase : String → ℚ

/-- The derived quantities of a TPX-mode state instance as functions of the
primary variables `flow_mol`, `vapor_frac`, `pressure` (Pa), `temperature`
(K), assembled exactly as in `HelmholtzStateBlockData.build`: reduced density
is `dens_mass_phase[p] / rhoc`, phase enthalpy and internal energy are
`1000*mw*func_h(delta[p], tau)` and `1000*mw*func_u(delta[p], tau)`, phase
mole density is `dens_mass_phase[p] / mw`, and the mixture values are the
phase-fraction-weighted sums and harmonic sums over the private phase list. -/
def tpxQuantities (pb : HelmholtzParams) (defined_state : Bool) (K : Kernel)
    (smax : ℚ → ℚ → ℚ → ℚ) (flow vf P T : ℚ) : Quantities :=
  let e := _tpx_phase_eq pb defined_state K smax
  let dmp : String → ℚ := fun p => e.dens_mass_phase p P T
  let delta : String → ℚ := fun p => dmp p / pb.dens_mass_crit
  let enthp : String → ℚ := fun p => 1000 * pb.mw * K.h (delta p) (tau pb T)
  let up : String → ℚ := fun p => 1000 * pb.mw * K.u (delta p) (tau pb T)
  { flow_mol := flow
    enth_mol := (pb.private_phase_list.map
      (fun p => phase_frac vf p * enthp p)).sum
    dens_mol := dens_mol pb dmp vf
    energy_internal_mol := (pb.private_phase_list.map
      (fun p => phase_frac vf p * up p)).sum
    phase_frac := phase_frac vf
    enth_mol_phase := enthp
    dens_mol_phase := dens_mol_phase pb dmp
    energy_internal_mol_phase := up }

/-- Model of `rule_material_flow_terms`: `flow_mol` for the mixed phase, otherwise
`flow_mol * phase_frac[p]`. -/
def material_flow_terms (q : Quantities) (p : String) : ℚ :=
  if p = "Mix" then q.flow_mol else q.flow_mol * q.phase_frac p

/-- The scaling expression recorded by `rule_material_flow_terms`:
`1 / flow_mol` for every public phase. -/
def material_flow_scale (q : Quantities) (_p : String) : ℚ :=
  1 / q.flow_mol

/-- Model of `rule_enthalpy_flow_terms`: `enth_mol * flow_mol` for the mixed phase,
otherwise `enth_mol_phase[p] * phase_frac[p] * flow_mol`. -/
def enthalpy_flow_terms (q : Quantities) (p : String) : ℚ :=
  if p = "Mix" then q.enth_mol * q.flow_mol
  else q.enth_mol_phase p * q.phase_frac p * q.flow_mol

/-- The scaling expression recorded by `rule_enthalpy_flow_terms`. -/
def enthalpy_flow_scale (q : Quantities) (p : String) : ℚ :=
  if p = "Mix" then 1 / (q.enth_mol * q.flow_mol)
  else 1 / (q.enth_mol_phase p * q.phase_frac p * q.flow_mol)

/-- Model of `rule_energy_density_terms`: `dens_mol * energy_internal_mol` for the
mixed phase, otherwise
`dens_mol_phase[p] * energy_internal_mol_phase[p]`. -/
def energy_density_terms (q : Quantities) (p : String) : ℚ :=
  if p = "Mix" then q.dens_mol * q.energy_internal_mol
  else q.dens_mol_phase p * q.energy_internal_mol_phase p

/-- The scaling expression recorded by `rule_energy_density_terms`: note the
mixed-phase entry is `1 / (energy_internal_mol * flow_mol)`. -/
def energy_density_scale (q : Quantities) (p : String) : ℚ :=
  if p = "Mix" then 1 / (q.energy_internal_mol * q.flow_mol)
  else 1 / (q.dens_mol_phase p * q.energy_internal_mol_phase p)

/-- A Pyomo `Var` as far as the bulk flag manager sees it: its current value
and its fixed/unfixed status. -/
structure VarState where
  value : ℚ
  fixed : Bool
  deriving DecidableEq, Repr

/-- One element of an indexed Helmholtz state block, reduced to what
`_StateBlock.initialize` and `_StateBlock.release_state` read and write: the
parameter block it was built from and the five primary-variable slots (in PH
mode `temperature`/`vapor_frac`, and in TPX mode `enth_mol`, are Expressions
in the source and are simply never touched by either method). -/
structure HState where
  params : HelmholtzParams
  flow_mol : VarState
  enth_mol : VarState
  temperature : VarState
  pressure : VarState
  vapor_frac : VarState

/-- The optional `state_args` dict passed to `_StateBlock.initialize`; a
`none` field models a key missing from the dict (the `KeyError` that is
caught and ignored). -/
structure StateArgs where
  flow_mol : Option ℚ
  enth_mol : Option ℚ
  temperature : Option ℚ
  pressure : Option ℚ
  vapor_frac : Option ℚ

/-- Model of `v.fix()`. -/
def fixVar (v : VarState) : VarState :=
  { v with fixed := true }

/-- Model of `_StateBlock._set_fixed`: `v.fix()` if the flag is set, else
`v.unfix()`. -/
def _set_fixed (v : VarState) (f : Bool) : VarState :=
  { v with fixed := f }

/-- The `if not v.<name>.fixed: try: v.<name>.value = state_args[...]`
pattern of `_StateBlock.initialize`. -/
def setIfUnfixed (v : VarState) (a : Option ℚ) : VarState :=
  if v.fixed then v
  else match a with
    | some x => { v with value := x }
    | none => v

/-- The body of the `_StateBlock.initialize` loop for one element: returns
the flags tuple captured for that element (a list of the pre-existing fixed
statuses) together with the updated element. -/
def initOne (hold_state : Bool) (sargs : Option StateArgs) (s : HState) :
    List Bool × HState :=
  let pp := s.params.config.phase_presentation
  match s.params.state_vars with
  | .PH =>
    let flags := [s.flow_mol.fixed, s.enth_mol.fixed, s.pressure.fixed]
    let s1 :=
      match sargs with
      | none => s
      | some a =>
        { s with
          flow_mol := setIfUnfixed s.flow_mol a.flow_mol
          enth_mol := setIfUnfixed s.enth_mol a.enth_mol
          pressure := setIfUnfixed s.pressure a.pressure }
    let s2 :=
      if hold_state then
        { s1 with
          flow_mol := fixVar s1.flow_mol
          enth_mol := fixVar s1.enth_mol
          pressure := fixVar s1.pressure }
      else s1
    (flags, s2)
  | .TPX =>
    if pp = .MIX ∨ pp = .LG then
      let flags := [s.flow_mol.fixed, s.temperature.fixed, s.pressure.fixed,
        s.vapor_frac.fixed]
      let s1 :=
        match sargs with
        | none => s
        | some a =>
          { s with
            flow_mol := setIfUnfixed s.flow_mol a.flow_mol
            temperature := setIfUnfixed s.temperature a.temperature
            pressure := setIfUnfixed s.pressure a.pressure
            vapor_frac := setIfUnfixed s.vapor_frac a.vapor_frac }
      let s2 :=
        if hold_state then
          { s1 with
            flow_mol := fixVar s1.flow_mol
            temperature := fixVar s1.temperature
            pressure := fixVar s1.pressure
            vapor_frac := fixVar s1.vapor_frac }
        else s1
      (flags, s2)
    else
      let flags := [s.flow_mol.fixed, s.temperature.fixed, s.pressure.fixed]
      let s1 :=
        match sargs with
        | none => s
        | some a =>
          { s with
            flow_mol := setIfUnfixed s.flow_mol a.flow_mol
            temperature := setIfUnfixed s.temperature a.temperature
            pressure := setIfUnfixed s.pressure a.pressure }
      let s2 :=
        if hold_state then
          { s1 with
            flow_mol := fixVar s1.flow_mol
            temperature := fixVar s1.temperature
            pressure := fixVar s1.pressure }
        else s1
      (flags, s2)

/-- The body of the `_StateBlock.release_state` loop for one element: reads
`f[0]`, `f[1]`, `f[2]` and, in two-phase TPX presentations, `f[3]`, restoring
each fixed status; a flags tuple too short for the element's shape is the
fatal `IndexError` of the source, modelled as `none`. -/
def releaseOne (s : HState) (f : List Bool) : Option HState :=
  let pp := s.params.config.phase_presentation
  match s.params.state_vars with
  | .PH =>
    match f with
    | f0 :: f1 :: f2 :: _ =>
      some { s with
        flow_mol := _set_fixed s.flow_mol f0
        enth_mol := _set_fixed s.enth_mol f1
        pressure := _set_fixed s.pressure f2 }
    | _ => none
  | .TPX =>
    if pp = .MIX ∨ pp = .LG then
      match f with
      | f0 :: f1 :: f2 :: f3 :: _ =>
        some { s with
          flow_mol := _set_fixed s.flow_mol f0
          temperature := _set_fixed s.temperature f1
          pressure := _set_fixed s.pressure f2
          vapor_frac := _set_fixed s.vapor_frac f3 }
      | _ => none
    else
      match f with
      | f0 :: f1 :: f2 :: _ =>
        some { s with
          flow_mol := _set_fixed s.flow_mol f0
          temperature := _set_fixed s.temperature f1
          pressure := _set_fixed s.pressure f2 }
      | _ => none

/-- Model of `_StateBlock.initialize` over a whole indexed block (the per-element
`HelmholtzStateBlockData.initialize` it then calls is `pass`): returns the
flags dict (as a positional list) and the updated elements. -/
def initStates (hold_state : Bool) (sargs : Option StateArgs)
    (ss : List HState) : List (List Bool) × List HState :=
  (ss.map fun s => (initOne hold_state sargs s).1,
   ss.map fun s => (initOne hold_state sargs s).2)

/-- Model of `_StateBlock.release_state` over a whole indexed block; a flags
collection whose shape does not match the block is the fatal usage error,
modelled as `none`. -/
def releaseStates (ss : List HState) (fs : List (List Bool)) :
    Option (List HState) :=
  match ss, fs with
  | [], [] => some []
  | s :: ss, f :: fs => do
    let s2 ← releaseOne s f
    let rest ← releaseStates ss fs
    pure (s2 :: rest)
  | _, _ => none

/-- The fixed/unfixed status of every primary-variable slot of an element. -/
def fixedStatus (s : HState) : List Bool :=
  [s.flow_mol.fixed, s.enth_mol.fixed, s.temperature.fixed, s.pressure.fixed,
    s.vapor_frac.fixed]

/-- Demo fluid constants (critical temperature, critical pressure, critical
mass density, molar mass 1) for concrete evaluations. -/
def constsDemo : FluidConsts where
  temperature_crit := 647
  pressure_crit := 22064
  dens_mass_crit := 322
  mw := 1

/-- Demo phase mass-density values: 500 for the liquid phase, 5 otherwise. -/
def densDemo : String → ℚ :=
  fun p => if p = "Liq" then 500 else 5

/-- A concrete stand-in for the opaque smooth maximum, for evaluations. -/
def smaxDemo : ℚ → ℚ → ℚ → ℚ :=
  fun a b _ => max a b

/-- C4: for every phase-presentation mode and every state-variable mode, the
built parameter block has private phase list exactly the two-element set
`{Vap, Liq}`, and its public phase list is `{Mix}`, `{Vap, Liq}`, `{Liq}` or
`{Vap}` according to the chosen phase-presentation mode. -/
theorem c4_private_phase_list_always_vap_liq
    (cfg : HelmholtzConfig) (c : FluidConsts) :
    (HelmholtzParameterBlockData.build cfg c).private_phase_list.toFinset
        = ({"Vap", "Liq"} : Finset String) ∧
    (HelmholtzParameterBlockData.build cfg c).phase_list.toFinset
        = (match cfg.phase_presentation with
           | .MIX => ({"Mix"} : Finset String)
           | .LG => {"Vap", "Liq"}
           | .L => {"Liq"}
           | .G => {"Vap"}) := by
  obtain ⟨pp, sv⟩ := cfg
  cases pp <;>
    exact ⟨by simp [HelmholtzParameterBlockData.build],
      by simp [HelmholtzParameterBlockData.build]⟩

/-- C8: the key set of the named-variable mapping returned by
`define_state_vars` is exactly `{flow_mol, enth_mol, pressure}` in PH mode
(for every phase presentation), exactly
`{flow_mol, temperature, pressure, vapor_frac}` in TPX mode with MIX or LG
presentation, and exactly `{flow_mol, temperature, pressure}` in TPX mode
with L or G presentation. -/
theorem c8_define_state_vars_keys (c : FluidConsts) :
    (∀ pp : PhaseType,
      ((define_state_vars
          (HelmholtzParameterBlockData.build ⟨pp, .PH⟩ c)).map Prod.fst).toFinset
        = ({"flow_mol", "enth_mol", "pressure"} : Finset String)) ∧
    ((define_state_vars
        (HelmholtzParameterBlockData.build ⟨.MIX, .TPX⟩ c)).map Prod.fst).toFinset
      = ({"flow_mol", "temperature", "pressure", "vapor_frac"} : Finset String) ∧
    ((define_state_vars
        (HelmholtzParameterBlockData.build ⟨.LG, .TPX⟩ c)).map Prod.fst).toFinset
      = ({"flow_mol", "temperature", "pressure", "vapor_frac"} : Finset String) ∧
    ((define_state_vars
        (HelmholtzParameterBlockData.build ⟨.L, .TPX⟩ c)).map Prod.fst).toFinset
      = ({"flow_mol", "temperature", "pressure"} : Finset String) ∧
    ((define_state_vars
        (HelmholtzParameterBlockData.build ⟨.G, .TPX⟩ c)).map Prod.fst).toFinset
      = ({"flow_mol", "temperature", "pressure"} : Finset String) := by
  refine ⟨fun pp => ?_,
    by simp [define_state_vars, _state_vars_dict, HelmholtzParameterBlockData.build],
    by simp [define_state_vars, _state_vars_dict, HelmholtzParameterBlockData.build],
    by simp [define_state_vars, _state_vars_dict, HelmholtzParameterBlockData.build],
    by simp [define_state_vars, _state_vars_dict, HelmholtzParameterBlockData.build]⟩
  cases pp <;>
    simp [define_state_vars, _state_vars_dict, HelmholtzParameterBlockData.build]

/-- Value of `isErr` on a conditional whose branches both return normally. -/
theorem isErr_ok_ite (c : Prop) [Decidable c] (a b : Branch × ℚ) :
    isErr (if c then Except.ok a else Except.ok b) = false := by
  split <;> rfl

/-- Characterization of when `_htpx` raises: exactly when the argument checks
at its head fail (the kernel evaluation that follows never raises). -/
theorem isErr_htpx_iff (K : Kernel) (Tc Pc mw T : ℚ) (P x : Option ℚ)
    (Tmin Tmax Pmin Pmax : ℚ) :
    isErr (_htpx K Tc Pc mw T P x Tmin Tmax Pmin Pmax) = true ↔
      (P.isSome = x.isSome ∨ ¬(Tmin ≤ T ∧ T ≤ Tmax) ∨
        (∃ p, P = some p ∧ ¬(Pmin ≤ p ∧ p ≤ Pmax)) ∨
        (∃ xv, x = some xv ∧ ¬(0 ≤ xv ∧ xv ≤ 1))) := by
  rcases P with _ | p <;> rcases x with _ | xv
  · exact iff_of_true (by simp [_htpx, isErr]) (Or.inl (by simp))
  · by_cases h1 : Tmin ≤ T ∧ T ≤ Tmax
    · by_cases h2 : 0 ≤ xv ∧ xv ≤ 1
      · refine iff_of_false (by simp [_htpx, isErr, h1, h2]) ?_
        rintro (h | h | ⟨p, hp, _⟩ | ⟨xv2, hx, hno⟩)
        · simp at h
        · exact h h1
        · exact Option.noConfusion hp
        · injection hx with hx
          subst hx
          exact hno h2
      · refine iff_of_true (by simp [_htpx, isErr, h1, h2]) ?_
        exact Or.inr (Or.inr (Or.inr ⟨xv, rfl, h2⟩))
    · refine iff_of_true (by simp [_htpx, isErr, h1]) ?_
      exact Or.inr (Or.inl h1)
  · by_cases h1 : Tmin ≤ T ∧ T ≤ Tmax
    · by_cases h2 : Pmin ≤ p ∧ p ≤ Pmax
      · refine iff_of_false (by simp [_htpx, isErr_ok_ite, h1, h2]) ?_
        rintro (h | h | ⟨p2, hp, hno⟩ | ⟨xv, hx, _⟩)
        · simp at h
        · exact h h1
        · injection hp with hp
          subst hp
          exact hno h2
        · exact Option.noConfusion hx
      · refine iff_of_true (by simp [_htpx, isErr, h1, h2]) ?_
        exact Or.inr (Or.inr (Or.inl ⟨p, rfl, h2⟩))
    · refine iff_of_true (by simp [_htpx, isErr, h1]) ?_
      exact Or.inr (Or.inl h1)
  · exact iff_of_true (by simp [_htpx, isErr]) (Or.inl (by simp))

/-- C3: `_htpx` raises a configuration error exactly when both or neither of
`P` and `x` are supplied, or `T` lies outside `[Tmin, Tmax]`, or a supplied
`P` lies outside `[Pmin, Pmax]`, or a supplied `x` lies outside `[0, 1]`;
with the default bounds, `T = 372` with exactly one of `P = 101325` or
`x = 1/2` passes every argument check, while `T = 1300` with `P = 101325`
fails and `T = 372` with `x = 3/2` fails. -/
theorem c3_htpx_argument_checks :
    (∀ (K : Kernel) (Tc Pc mw T : ℚ) (P x : Option ℚ)
        (Tmin Tmax Pmin Pmax : ℚ),
      isErr (_htpx K Tc Pc mw T P x Tmin Tmax Pmin Pmax) = true ↔
        (P.isSome = x.isSome ∨ ¬(Tmin ≤ T ∧ T ≤ Tmax) ∨
          (∃ p, P = some p ∧ ¬(Pmin ≤ p ∧ p ≤ Pmax)) ∨
          (∃ xv, x = some xv ∧ ¬(0 ≤ xv ∧ xv ≤ 1)))) ∧
    (∀ (K : Kernel) (Tc Pc mw : ℚ),
      isErr (_htpx K Tc Pc mw 372 (some 101325) none 200 1200 1 1000000000)
          = false ∧
      isErr (_htpx K Tc Pc mw 372 none (some (1/2)) 200 1200 1 1000000000)
          = false ∧
      isErr (_htpx K Tc Pc mw 1300 (some 101325) none 200 1200 1 1000000000)
          = true ∧
      isErr (_htpx K Tc Pc mw 372 none (some (3/2)) 200 1200 1 1000000000)
          = true) := by
  refine ⟨isErr_htpx_iff, fun K Tc Pc mw => ⟨?_, ?_, ?_, ?_⟩⟩
  · rw [Bool.eq_false_iff, Ne, isErr_htpx_iff]
    push_neg
    refine ⟨by simp, by norm_num, ?_, ?_⟩
    · intro p hp
      injection hp with hp
      subst hp
      norm_num
    · intro xv hx
      cases hx
  · rw [Bool.eq_false_iff, Ne, isErr_htpx_iff]
    push_neg
    refine ⟨by simp, by norm_num, ?_, ?_⟩
    · intro p hp
      cases hp
    · intro xv hx
      injection hx with hx
      subst hx
      norm_num
  · rw [isErr_htpx_iff]
    refine Or.inr (Or.inl ?_)
    rintro ⟨-, hb⟩
    norm_num at hb
  · rw [isErr_htpx_iff]
    refine Or.inr (Or.inr (Or.inr ⟨3/2, rfl, ?_⟩))
    rintro ⟨-, hb⟩
    norm_num at hb

/-- C10: in `_htpx` with a pressure supplied and the argument checks passed,
the liquid-branch enthalpy (`func_hlpt`) is returned exactly when `T` is
below the saturation temperature at `P` or `P` exceeds the critical
pressure, and the vapor-branch enthalpy (`func_hvpt`) otherwise — so a
supercritical pressure always selects the liquid branch regardless of `T`. -/
theorem c10_htpx_pressure_branch (K : Kernel)
    (Tc Pc mw T p Tmin Tmax Pmin Pmax : ℚ)
    (hT : Tmin ≤ T ∧ T ≤ Tmax) (hP : Pmin ≤ p ∧ p ≤ Pmax) :
    _htpx K Tc Pc mw T (some p) none Tmin Tmax Pmin Pmax =
      (if T < Tc / K.tau_sat (p / 1000) ∨ p > Pc then
        Except.ok (Branch.liq, K.hlpt (p / 1000) (Tc / T) * mw * 1000)
      else
        Except.ok (Branch.vap, K.hvpt (p / 1000) (Tc / T) * mw * 1000)) := by
  simp [_htpx, hT.1, hT.2, hP.1, hP.2]

/-- Evaluation of C10 at a concrete kernel and point: `Tsat = 600/2 = 300`,
so `T = 250` selects the liquid branch. -/
theorem c10_htpx_pressure_branch_witness :
    _htpx Kdemo 600 100 1 250 (some 50) none 200 1200 1 1000000000 =
      Except.ok (Branch.liq, 100000) := by
  have h := c10_htpx_pressure_branch Kdemo 600 100 1 250 50 200 1200 1
    1000000000 (by norm_num) (by norm_num)
  rw [h]
  norm_num [Kdemo]

/-- C1: for a TPX-mode state instance, `_tpx_phase_eq` adds the
complementarity constraint `0 = vf * P_over_sat - (1 - vf) * P_under_sat`
exactly when the public phase list contains both phases and the instance's
`defined_state` config flag is false; with a single public phase, or with
`defined_state` true, no complementarity constraint is built. -/
theorem c1_tpx_complementarity_exact_condition (pp : PhaseType) (ds : Bool)
    (c : FluidConsts) (K : Kernel) (smax : ℚ → ℚ → ℚ → ℚ) :
    (_tpx_phase_eq (HelmholtzParameterBlockData.build ⟨pp, .TPX⟩ c) ds K
        smax).eq_complementarity =
      (if ("Liq" ∈ (HelmholtzParameterBlockData.build ⟨pp, .TPX⟩ c).phase_list ∧
          "Vap" ∈ (HelmholtzParameterBlockData.build ⟨pp, .TPX⟩ c).phase_list) ∧
          ds = false then
        some (fun vf P T =>
          vf * (_tpx_phase_eq (HelmholtzParameterBlockData.build ⟨pp, .TPX⟩ c)
              ds K smax).P_over_sat P T -
            (1 - vf) * (_tpx_phase_eq (HelmholtzParameterBlockData.build
              ⟨pp, .TPX⟩ c) ds K smax).P_under_sat P T)
      else none) := by
  cases pp <;> cases ds <;>
    simp [HelmholtzParameterBlockData.build, _tpx_phase_eq]

/-- C5: in the single-phase presentation modes, `_tpx_phase_eq` fixes the
TPX-mode `vapor_frac` variable at 0 (Liquid-only) or 1 (Vapor-only), the
PH-mode `vapor_frac` Expression is the constant 0 or 1, and no
complementarity constraint is built for such an instance in either
state-variable mode. -/
theorem c5_single_phase_vapor_frac (sv : StateVars) (ds : Bool)
    (c : FluidConsts) (K : Kernel) (smax : ℚ → ℚ → ℚ → ℚ)
    (enth pressure : ℚ) :
    (_tpx_phase_eq (HelmholtzParameterBlockData.build ⟨.L, sv⟩ c) ds K
        smax).vf_fix = some 0 ∧
    (_tpx_phase_eq (HelmholtzParameterBlockData.build ⟨.G, sv⟩ c) ds K
        smax).vf_fix = some 1 ∧
    ph_vapor_frac (HelmholtzParameterBlockData.build ⟨.L, sv⟩ c) K
        enth pressure = 0 ∧
    ph_vapor_frac (HelmholtzParameterBlockData.build ⟨.G, sv⟩ c) K
        enth pressure = 1 ∧
    has_complementarity (HelmholtzParameterBlockData.build ⟨.L, sv⟩ c) ds K
        smax = false ∧
    has_complementarity (HelmholtzParameterBlockData.build ⟨.G, sv⟩ c) ds K
        smax = false := by
  cases sv <;>
    refine ⟨?_, ?_, ?_, ?_, ?_, ?_⟩ <;>
      simp [HelmholtzParameterBlockData.build, _tpx_phase_eq, ph_vapor_frac,
        has_complementarity]

/-- The saturation-pressure Expression converted back to kPa is the raw
kernel value `func_p_sat(tau)`. -/
theorem pressure_sat_kpa (pb : HelmholtzParams) (K : Kernel) (T : ℚ) :
    pressure_sat pb K T / 1000 = K.p_sat (tau pb T) := by
  unfold pressure_sat
  ring

/-- C6: in TPX mode the liquid-phase mass density is the kernel liquid
density `rhoc * func_delta_liq` evaluated at the shifted pressure
`P + P_under_sat` and the vapor-phase mass density is
`rhoc * func_delta_vap` evaluated at `P - P_over_sat`, where
`P_under_sat = smooth_max(0, Psat - P, eps_under)` and
`P_over_sat = smooth_max(0, P - Psat, eps_over)` (pressures in kPa), for
every value of the primary variables. -/
theorem c6_tpx_shifted_pressure_densities (pp : PhaseType) (ds : Bool)
    (c : FluidConsts) (K : Kernel) (smax : ℚ → ℚ → ℚ → ℚ) (P T : ℚ) :
    (_tpx_phase_eq (HelmholtzParameterBlockData.build ⟨pp, .TPX⟩ c) ds K
        smax).dens_mass_phase "Liq" P T =
      c.dens_mass_crit * K.delta_liq
        (P / 1000 + (_tpx_phase_eq (HelmholtzParameterBlockData.build
          ⟨pp, .TPX⟩ c) ds K smax).P_under_sat P T)
        (c.temperature_crit / T) ∧
    (_tpx_phase_eq (HelmholtzParameterBlockData.build ⟨pp, .TPX⟩ c) ds K
        smax).dens_mass_phase "Vap" P T =
      c.dens_mass_crit * K.delta_vap
        (P / 1000 - (_tpx_phase_eq (HelmholtzParameterBlockData.build
          ⟨pp, .TPX⟩ c) ds K smax).P_over_sat P T)
        (c.temperature_crit / T) ∧
    (_tpx_phase_eq (HelmholtzParameterBlockData.build ⟨pp, .TPX⟩ c) ds K
        smax).P_under_sat P T =
      smax 0 (K.p_sat (c.temperature_crit / T) - P / 1000)
        (HelmholtzParameterBlockData.build ⟨pp, .TPX⟩
          c).smoothing_pressure_under ∧
    (_tpx_phase_eq (HelmholtzParameterBlockData.build ⟨pp, .TPX⟩ c) ds K
        smax).P_over_sat P T =
      smax 0 (P / 1000 - K.p_sat (c.temperature_crit / T))
        (HelmholtzParameterBlockData.build ⟨pp, .TPX⟩
          c).smoothing_pressure_over := by
  refine ⟨?_, ?_, ?_, ?_⟩ <;>
    simp [_tpx_phase_eq, pressure_sat_kpa, tau, HelmholtzParameterBlockData.build]

/-- The mixture mole density at the demo phase densities evaluates to
`5000/307`. -/
theorem dens_mol_demo_value :
    dens_mol (HelmholtzParameterBlockData.build ⟨.MIX, .TPX⟩ constsDemo)
        densDemo (3/10) = 5000/307 := by
  simp [dens_mol, dens_mol_phase, phase_frac, densDemo, constsDemo,
    HelmholtzParameterBlockData.build]
  norm_num

/-- C7 counterexample: the code's mixture mole density at phase mole
densities 500 (liquid) and 5 (vapor) with vapor fraction 0.3 equals
`1/(0.3/5 + 0.7/500) = 5000/307 = 16.286...`, which differs from the
spec's quoted value 16.39 by more than 0.1. -/
theorem c7_instance_is_not_16_39 :
    dens_mol (HelmholtzParameterBlockData.build ⟨.MIX, .TPX⟩ constsDemo)
        densDemo (3/10) = 1 / ((3/10) / 5 + (1 - 3/10) / 500) ∧
    ¬(|dens_mol (HelmholtzParameterBlockData.build ⟨.MIX, .TPX⟩ constsDemo)
        densDemo (3/10) - 1639/100| < 1/10) := by
  rw [dens_mol_demo_value]
  constructor
  · norm_num
  · rw [abs_of_neg (by norm_num)]
    norm_num

/-- C7 (amended): mixture mass density and mole density are the
phase-fraction-weighted harmonic means
`1 / (sum over phases of phase_frac[p] / dens_phase[p])` with vapor phase
fraction `vapor_frac` and liquid phase fraction `1 - vapor_frac`; at phase
mole densities 500 (liquid) and 5 (vapor) with vapor fraction 0.3 the
mixture mole density equals `1/(0.3/5 + 0.7/500)`, which is approximately
16.29 (not 16.39). -/
theorem c7_mixture_density_harmonic_mean (cfg : HelmholtzConfig)
    (c : FluidConsts) (dmp : String → ℚ) (vf : ℚ) :
    (dens_mass (HelmholtzParameterBlockData.build cfg c) dmp vf =
        1 / (vf / dmp "Vap" + (1 - vf) / dmp "Liq") ∧
      dens_mol (HelmholtzParameterBlockData.build cfg c) dmp vf =
        1 / (vf / dens_mol_phase (HelmholtzParameterBlockData.build cfg c)
              dmp "Vap"
          + (1 - vf) / dens_mol_phase (HelmholtzParameterBlockData.build
              cfg c) dmp "Liq")) ∧
    dens_mol (HelmholtzParameterBlockData.build ⟨.MIX, .TPX⟩ constsDemo)
        densDemo (3/10) = 1 / ((3/10) / 5 + (1 - 3/10) / 500) ∧
    |dens_mol (HelmholtzParameterBlockData.build ⟨.MIX, .TPX⟩ constsDemo)
        densDemo (3/10) - 1629/100| < 1/100 := by
  refine ⟨⟨?_, ?_⟩, ?_, ?_⟩
  · simp [dens_mass, phase_frac, HelmholtzParameterBlockData.build]
  · simp [dens_mol, phase_frac, HelmholtzParameterBlockData.build]
  · rw [dens_mol_demo_value]
    norm_num
  · rw [dens_mol_demo_value, abs_of_neg (by norm_num)]
    norm_num

/-- A concrete quantity bundle: the TPX derived graph at flow 2, vapor
fraction 0.3, pressure 1000 Pa, temperature 300 K over the demo kernel. -/
def qDemo : Quantities :=
  tpxQuantities (HelmholtzParameterBlockData.build ⟨.LG, .TPX⟩ constsDemo)
    false Kdemo smaxDemo 2 (3/10) 1000 300

/-- C9 counterexample: in LG presentation the liquid material flow term is
`flow_mol * phase_frac[Liq] = 2 * 0.7 = 1.4`, but its recorded scale is
`1/flow_mol = 1/2`, which is not the reciprocal `5/7` of the term. -/
theorem c9_material_flow_scale_not_reciprocal :
    material_flow_terms qDemo "Liq" = 7/5 ∧
    material_flow_scale qDemo "Liq" = 1/2 ∧
    material_flow_scale qDemo "Liq" ≠ 1 / material_flow_terms qDemo "Liq" := by
  refine ⟨?_, ?_, ?_⟩ <;>
    simp [qDemo, tpxQuantities, material_flow_terms, material_flow_scale,
      phase_frac, HelmholtzParameterBlockData.build] <;>
    norm_num

/-- C9 (amended): the enthalpy flow terms (every public phase) and the
non-mixed energy-density terms are scaled by the exact reciprocal of the
term; the material flow terms are all scaled by `1/flow_mol` (the
reciprocal of total flow, not of the per-phase term), and the mixed-phase
energy-density term is scaled by `1/(energy_internal_mol * flow_mol)`; no
scale is a fixed constant. -/
theorem c9_balance_term_scaling (q : Quantities) (p : String) :
    enthalpy_flow_scale q p = 1 / enthalpy_flow_terms q p ∧
    material_flow_scale q p = 1 / q.flow_mol ∧
    energy_density_scale q "Liq" = 1 / energy_density_terms q "Liq" ∧
    energy_density_scale q "Vap" = 1 / energy_density_terms q "Vap" ∧
    energy_density_scale q "Mix" = 1 / (q.energy_internal_mol * q.flow_mol)
    := by
  refine ⟨?_, rfl, ?_, ?_, ?_⟩
  · unfold enthalpy_flow_scale enthalpy_flow_terms
    split <;> rfl
  · simp [energy_density_scale, energy_density_terms]
  · simp [energy_density_scale, energy_density_terms]
  · simp [energy_density_scale]

/-- One-element round trip of the hold/release protocol: releasing with the
flags captured by the initialization loop restores every fixed status. -/
theorem releaseOne_initOne (hold : Bool) (sargs : Option StateArgs)
    (s : HState) :
    (releaseOne (initOne hold sargs s).2 (initOne hold sargs s).1).map
        fixedStatus = some (fixedStatus s) := by
  obtain ⟨pb, fl, en, te, pr, vf⟩ := s
  obtain ⟨⟨pp, sv⟩, pl, ppl, stv, spo, spu, tc, pc, rc, mw⟩ := pb
  cases stv <;> cases pp <;> cases sargs <;> cases hold <;> rfl

/-- C2: for every collection of state instances (any state-variable mode and
any phase-presentation mode), `initialize` with `hold_state=True` followed by
`release_state` with the flags it returned restores every primary variable's
fixed/unfixed status to exactly what it was before. -/
theorem c2_hold_release_round_trip (ss : List HState)
    (sargs : Option StateArgs) :
    Option.map (List.map fixedStatus)
        (releaseStates (initStates true sargs ss).2
          (initStates true sargs ss).1)
      = some (ss.map fixedStatus) := by
  induction ss with
  | nil => rfl
  | cons s rest ih =>
    have h := releaseOne_initOne true sargs s
    rcases hro : releaseOne (initOne true sargs s).2 (initOne true sargs s).1
      with _ | s2
    · rw [hro] at h
      simp at h
    · rw [hro] at h
      rcases hrs : releaseStates (initStates true sargs rest).2
          (initStates true sargs rest).1 with _ | rest2
      · rw [hrs] at ih
        simp at ih
      · rw [hrs] at ih
        simp only [Option.map, Option.some.injEq] at h ih
        simp [initStates, releaseStates, hro, hrs, Option.map] at *
        exact ⟨h, ih⟩

end Helmholtz
